import Mathlib

/-!
Verification of the supabase-keepalive worker
(`src/supabase-keepalive/src/index.js`, with an earlier revision in
`src/unnamed/part_000`).

The worker's pure orchestration logic is shallowly embedded below.  External
collaborators are modelled as explicit oracles:

* the platform URL constructor (`new URL(url).hostname`) is a parameter
  `parseHost : String → Option String` (`none` = the constructor throws);
* each concurrent `fetch` in `pingProject` is a `FetchOutcome`
  (a received response carrying `ok`/`status`, or a thrown transport error
  carrying a message); per-probe wall-clock durations and timestamps are
  oracles indexed by the probe's ordinal;
* the KV binding `env.KEEPALIVE_STATUS` is a `KVStore`: the blob stored under
  the single history key, plus flags for read/write failure; a stored blob
  that `JSON.parse` rejects (or that lacks a `runs` array) is `.invalid`;
* instants (`Date.now()`, ISO timestamps compared via `Date.parse`) are
  integer milliseconds.

JavaScript truthiness of configuration strings (`if (url && anonKey)`) is
modelled by `jsTruthy`: an absent entry and an empty string are both falsy.
-/

namespace Keepalive

/-- `HISTORY_RETENTION_MS = 24 * 60 * 60 * 1000` from index.js line 9. -/
def HISTORY_RETENTION_MS : Int := 24 * 60 * 60 * 1000

/-- A discovered target: `{name, url, anonKey}` pushed by `discoverProjects`. -/
structure Project where
  name : String
  url : String
  anonKey : String
deriving Repr, DecidableEq

/-- Worker configuration namespace: the values of `SUPABASE_URL_<i>` and
`SUPABASE_ANON_KEY_<i>` (`none` when the variable is unset). -/
structure Env where
  url : Nat → Option String
  anonKey : Nat → Option String

/-- JavaScript truthiness of an optional string: `undefined` and `""` are
falsy, every non-empty string is truthy. -/
def jsTruthy : Option String → Bool
  | none => false
  | some s => !s.isEmpty

/-- `hostname.split('.')[0]`: the first label of a hostname (`split` always
returns at least one element, so index 0 is its head). -/
def firstLabel (hostname : String) : String := (hostname.splitOn ".").headD ""

/-- `extractProjectName(url, index)` (index.js lines 51-59): parse the URL,
take `hostname.split('.')[0]`; if the constructor throws or the first label
is falsy (empty), fall back to `"project-" + index`.  `parseHost` stands for
the platform `new URL(url).hostname` (`none` = throws). -/
def extractProjectName (parseHost : String → Option String) (url : String)
    (index : Nat) : String :=
  match parseHost url with
  | none => "project-" ++ toString index
  | some hostname =>
      let projectId := firstLabel hostname
      if projectId.isEmpty then "project-" ++ toString index else projectId

/-- `discoverProjects(env)` (index.js lines 19-42): scan ordinals 1..99; a
project is pushed only when both the URL and the key are truthy; an
incomplete pair is only warned about (a log side effect, dropped here). -/
def discoverProjects (parseHost : String → Option String) (env : Env) :
    List Project :=
  (List.range 99).foldl
    (fun projects j =>
      let i := j + 1
      let url := env.url i
      let anonKey := env.anonKey i
      if jsTruthy url && jsTruthy anonKey then
        projects ++ [{ name := extractProjectName parseHost (url.getD "") i,
                       url := url.getD "", anonKey := anonKey.getD "" }]
      else projects)
    []

/-- Outcome of the one `fetch` a probe performs: a response was received
(carrying `response.ok` and `response.status`), or the awaited fetch threw a
transport error (carrying `error.message`). -/
inductive FetchOutcome where
  | response (ok : Bool) (status : Nat)
  | thrown (message : String)
deriving Repr, DecidableEq

/-- The per-probe result record built by `pingProject`.  The success branch
sets `statusCode` and no `error`; the catch branch sets `error` and no
`statusCode`.  `timestamp` is `new Date().toISOString()` as epoch ms. -/
structure PingResult where
  project : String
  success : Bool
  statusCode : Option Nat
  error : Option String
  duration : Int
  timestamp : Int
deriving Repr, DecidableEq

/-- `pingProject(project)` (index.js lines 78-122): try the fetch; on a
response build `{project, success: response.ok, statusCode, duration,
timestamp}`; on a thrown error build `{project, success: false, error:
message, duration, timestamp}`.  Both branches return normally — the
function is total, no exception escapes. -/
def pingProject (project : Project) (outcome : FetchOutcome)
    (duration : Int) (timestamp : Int) : PingResult :=
  match outcome with
  | .response ok status =>
      { project := project.name, success := ok, statusCode := some status,
        error := none, duration := duration, timestamp := timestamp }
  | .thrown message =>
      { project := project.name, success := false, statusCode := none,
        error := some message, duration := duration, timestamp := timestamp }

/-- The `summary` counts object of a run (the spec calls it `counts`). -/
structure Summary where
  total : Nat
  succeeded : Nat
  failed : Nat
deriving Repr, DecidableEq

/-- The `resultsData` object `runKeepalive` builds and returns. -/
structure RunData where
  success : Bool
  message : String
  results : List PingResult
  summary : Summary
deriving Repr, DecidableEq

/-- One entry of `history.runs` as written by `saveRunToKV` (index.js lines
139-145): `{timestamp, trigger, success, results, summary}`; the ISO
timestamp is kept as epoch ms (what `Date.parse` recovers from it). -/
structure HistoryRun where
  timestamp : Int
  trigger : String
  success : Bool
  results : List PingResult
  summary : Summary
deriving Repr, DecidableEq

/-- The persisted history blob: `{runs, lastUpdated}`.  `lastUpdated` is
`none` only for the fresh `{ runs: [] }` default before any write. -/
structure HistoryLog where
  runs : List HistoryRun
  lastUpdated : Option Int
deriving Repr, DecidableEq

/-- What sits under the history key in KV: either a JSON string that parses
back to a `HistoryLog`, or a string that makes the body of `saveRunToKV` /
`getStatusFromKV` throw (unparseable, or parseable but without a usable
`runs` array). -/
inductive StoredBlob where
  | valid (log : HistoryLog)
  | invalid
deriving Repr, DecidableEq

/-- The `env.KEEPALIVE_STATUS` KV binding: the blob stored under
`KV_HISTORY_KEY` (`none` = never written) and whether `get` / `put` throw. -/
structure KVStore where
  blob : Option StoredBlob
  getFails : Bool
  putFails : Bool
deriving Repr, DecidableEq

/-- `JSON.parse(existingData)` with the `existingData ? ... : { runs: [] }`
default: `none` means the parse (or a later field access) throws. -/
def parsedHistory : Option StoredBlob → Option HistoryLog
  | none => some { runs := [], lastUpdated := none }
  | some (.valid log) => some log
  | some .invalid => none

/-- The `newRun` record pushed by `saveRunToKV` for run `rd`: its timestamp
is the append instant `now`. -/
def mkRun (rd : RunData) (trigger : String) (now : Int) : HistoryRun :=
  { timestamp := now, trigger := trigger, success := rd.success,
    results := rd.results, summary := rd.summary }

/-- The `try` body of `saveRunToKV` (index.js lines 133-161): read the blob,
parse (absent → `{ runs: [] }`), push the new run, keep only runs with
`Date.parse(run.timestamp) >= Date.now() - HISTORY_RETENTION_MS`, set
`lastUpdated`, write back.  `.error` is any thrown step (failed `get`,
failed parse, failed `put`). -/
def saveRunToKVAttempt (kv : KVStore) (rd : RunData) (trigger : String)
    (now : Int) : Except String KVStore :=
  if kv.getFails then .error "KV get failed"
  else
    match parsedHistory kv.blob with
    | none => .error "JSON parse failed"
    | some history =>
        let runs1 := history.runs ++ [mkRun rd trigger now]
        let cutoffTime := now - HISTORY_RETENTION_MS
        let runs2 := runs1.filter (fun run => cutoffTime ≤ run.timestamp)
        if kv.putFails then .error "KV put failed"
        else .ok { kv with
                    blob := some (.valid { runs := runs2,
                                           lastUpdated := some now }) }

/-- `saveRunToKV(env, runData, trigger)` (index.js lines 132-166): the try
body above with every failure caught and swallowed (only logged), leaving
the store untouched.  Total: it returns a store in every case. -/
def saveRunToKV (kv : KVStore) (rd : RunData) (trigger : String)
    (now : Int) : KVStore :=
  match saveRunToKVAttempt kv rd trigger now with
  | .ok kv2 => kv2
  | .error _ => kv

/-- `getStatusFromKV(env)` (index.js lines 174-185): `null` when the key is
absent, when `get` throws, or when `JSON.parse` throws; otherwise the parsed
log.  Note the absent-key default here is `null`, not `{ runs: [] }`. -/
def getStatusFromKV (kv : KVStore) : Option HistoryLog :=
  if kv.getFails then none
  else
    match kv.blob with
    | none => none
    | some (.valid log) => some log
    | some .invalid => none

/-- The `/status` response body; only the fields the data contract covers
are modelled (the constant `service` / `nextRun` strings are dropped).
`historyAvailableTrue` mirrors the literal `history.available: true` field,
absent (`false`) in the no-data body. -/
structure StatusBody where
  status : String
  lastRun : Option Int
  trigger : Option String
  results : Option (List PingResult)
  summary : Option Summary
  historyAvailableTrue : Bool
  runCount : Option Nat
  oldestRun : Option Int
deriving Repr, DecidableEq

/-- The body returned when there is no history (index.js lines 199-209). -/
def noDataBody : StatusBody :=
  { status := "no_data", lastRun := none, trigger := none, results := none,
    summary := none, historyAvailableTrue := false, runCount := none,
    oldestRun := none }

/-- `handleStatusEndpoint(env)` (index.js lines 194-253) as HTTP status code
paired with body: absent/empty history → 200 `no_data`; otherwise render the
last run, 200 `healthy` when it succeeded, 503 `degraded` when not. -/
def handleStatusEndpoint (kv : KVStore) : Nat × StatusBody :=
  match getStatusFromKV kv with
  | none => (200, noDataBody)
  | some history =>
      match history.runs.getLast? with
      | none => (200, noDataBody)
      | some lastRun =>
          let allHealthy := lastRun.success
          let statusCode := if allHealthy then 200 else 503
          let statusText := if allHealthy then "healthy" else "degraded"
          let oldestRun := history.runs.head?.map (fun run => run.timestamp)
          (statusCode,
           { status := statusText, lastRun := some lastRun.timestamp,
             trigger := some lastRun.trigger,
             results := some lastRun.results,
             summary := some lastRun.summary,
             historyAvailableTrue := true,
             runCount := some history.runs.length,
             oldestRun := oldestRun })

/-- `await Promise.all(projects.map(pingProject))`: every probe runs as an
independent task with its own fetch outcome, duration and timestamp (indexed
by the probe's ordinal); the join returns the results in target order. -/
def pingAll (oracle : Nat → FetchOutcome) (dur : Nat → Int)
    (ts : Nat → Int) : Nat → List Project → List PingResult
  | _, [] => []
  | i, p :: ps =>
      pingProject p (oracle i) (dur i) (ts i) ::
        pingAll oracle dur ts (i + 1) ps

/-- `runKeepalive(env, trigger)` (index.js lines 262-309): discover targets;
zero targets short-circuits to the unsuccessful zero-count summary; else
probe all concurrently and aggregate.  Either way the summary is handed to
`saveRunToKV` before being returned; the pair is (returned summary,
resulting KV state). -/
def runKeepalive (parseHost : String → Option String) (env : Env)
    (oracle : Nat → FetchOutcome) (dur : Nat → Int) (ts : Nat → Int)
    (kv : KVStore) (trigger : String) (now : Int) : RunData × KVStore :=
  let projects := discoverProjects parseHost env
  if projects.length = 0 then
    let resultsData : RunData :=
      { success := false, message := "No projects configured",
        results := [], summary := { total := 0, succeeded := 0, failed := 0 } }
    (resultsData, saveRunToKV kv resultsData trigger now)
  else
    let results := pingAll oracle dur ts 0 projects
    let succeeded := (results.filter (fun r => r.success)).length
    let failed := (results.filter (fun r => !r.success)).length
    let resultsData : RunData :=
      { success := failed == 0,
        message := "Pinged " ++ toString results.length ++ " project(s): " ++
          toString succeeded ++ " succeeded, " ++ toString failed ++ " failed",
        results := results,
        summary := { total := results.length, succeeded := succeeded,
                     failed := failed } }
    (resultsData, saveRunToKV kv resultsData trigger now)

/-- Bodies the HTTP handler can return. -/
inductive ResponseBody where
  | health
  | statusPage (body : StatusBody)
  | run (rd : RunData)
deriving Repr, DecidableEq

/-- The default export's `fetch(request, env, ctx)` (index.js lines 315-337):
`/health` → static 200; `/status` → `handleStatusEndpoint`; any other path
runs the keepalive with trigger `'manual'` and answers 200 on success, 207
otherwise.  Returns ((HTTP status, body), resulting KV state). -/
def fetchHandler (parseHost : String → Option String) (env : Env)
    (oracle : Nat → FetchOutcome) (dur : Nat → Int) (ts : Nat → Int)
    (kv : KVStore) (path : String) (now : Int) :
    (Nat × ResponseBody) × KVStore :=
  if path = "/health" then ((200, .health), kv)
  else if path = "/status" then
    let (code, body) := handleStatusEndpoint kv
    ((code, .statusPage body), kv)
  else
    let results := runKeepalive parseHost env oracle dur ts kv "manual" now
    ((if results.1.success then 200 else 207, .run results.1), results.2)

/-- The default export's `scheduled(event, env, ctx)` (index.js lines
342-345): `await runKeepalive(env, 'cron')`, discarding the summary — only
the KV state survives the invocation. -/
def scheduledHandler (parseHost : String → Option String) (env : Env)
    (oracle : Nat → FetchOutcome) (dur : Nat → Int) (ts : Nat → Int)
    (kv : KVStore) (now : Int) : KVStore :=
  (runKeepalive parseHost env oracle dur ts kv "cron" now).2

/-! ### Concrete fixtures used by witnesses and counterexamples -/

/-- A URL-parse oracle under which `new URL` always throws. -/
def phNone : String → Option String := fun _ => none

/-- A URL-parse oracle returning a fixed two-label hostname. -/
def phHost : String → Option String := fun _ => some "my-proj.supabase.co"

/-- Configuration with no variable set: zero targets discovered. -/
def emptyEnv : Env := { url := fun _ => none, anonKey := fun _ => none }

/-- Configuration with exactly the pair for ordinal 1 set. -/
def oneEnv : Env :=
  { url := fun i => if i = 1 then some "https://my-proj.supabase.co" else none,
    anonKey := fun i => if i = 1 then some "anon-key-1" else none }

/-- A working, never-written KV store. -/
def freshKV : KVStore := { blob := none, getFails := false, putFails := false }

/-- A KV store whose `get` throws. -/
def failKV : KVStore := { blob := none, getFails := true, putFails := false }

/-- A fetch oracle under which every probe's fetch throws. -/
def oracleThrow : Nat → FetchOutcome := fun _ => .thrown "connection reset"

/-- A fetch oracle under which every probe receives a non-2xx response. -/
def oracleBad : Nat → FetchOutcome := fun _ => .response false 500

/-- Zero duration / epoch timestamp oracles. -/
def dur0 : Nat → Int := fun _ => 0

/-- Zero duration / epoch timestamp oracles. -/
def ts0 : Nat → Int := fun _ => 0

/-- The `resultsData` literal of the zero-target branch of `runKeepalive`. -/
def zeroRunData : RunData :=
  { success := false, message := "No projects configured", results := [],
    summary := { total := 0, succeeded := 0, failed := 0 } }

/-! ### Shared helper lemmas -/

/-- Counting a result list by `success` and by its negation partitions it. -/
theorem filter_success_length (l : List PingResult) :
    (l.filter (fun r => r.success)).length +
      (l.filter (fun r => !r.success)).length = l.length := by
  induction l with
  | nil => rfl
  | cons a t ih => cases ha : a.success <;> simp [List.filter_cons, ha] <;> omega

/-- Both branches of `pingProject` label the result with the target's name. -/
theorem pingProject_project (p : Project) (o : FetchOutcome) (d t : Int) :
    (pingProject p o d t).project = p.name := by
  cases o <;> rfl

/-- The fan-out produces one result per target. -/
theorem pingAll_length (oracle : Nat → FetchOutcome) (dur ts : Nat → Int)
    (n : Nat) (l : List Project) :
    (pingAll oracle dur ts n l).length = l.length := by
  induction l generalizing n with
  | nil => rfl
  | cons p ps ih => simp [pingAll, ih]

/-- The i-th result of the fan-out is labelled with the i-th target's name. -/
theorem pingAll_getElem (oracle : Nat → FetchOutcome) (dur ts : Nat → Int)
    (n : Nat) (l : List Project) (i : Nat) :
    ((pingAll oracle dur ts n l)[i]?).map (fun r => r.project)
      = (l[i]?).map (fun p => p.name) := by
  induction l generalizing n i with
  | nil => rfl
  | cons p ps ih =>
      cases i with
      | zero => simp [pingAll, pingProject_project]
      | succ j => simpa [pingAll] using ih (n + 1) j

/-- Both branches of `runKeepalive` end by handing the summary they are
about to return to `saveRunToKV`. -/
theorem runKeepalive_snd_eq (parseHost : String → Option String) (env : Env)
    (oracle : Nat → FetchOutcome) (dur ts : Nat → Int) (kv : KVStore)
    (trigger : String) (now : Int) :
    (runKeepalive parseHost env oracle dur ts kv trigger now).2 =
      saveRunToKV kv (runKeepalive parseHost env oracle dur ts kv trigger now).1
        trigger now := by
  by_cases h : (discoverProjects parseHost env).length = 0 <;>
    simp [runKeepalive, h]

/-- On a fully working store, `saveRunToKV` writes back exactly the prior
runs with the new run appended, pruned at `now - HISTORY_RETENTION_MS`. -/
theorem saveRunToKV_ok (kv : KVStore) (rd : RunData) (trigger : String)
    (now : Int) (prior : HistoryLog) (hg : kv.getFails = false)
    (hb : parsedHistory kv.blob = some prior) (hp : kv.putFails = false) :
    saveRunToKV kv rd trigger now =
      { kv with blob := some (.valid
          { runs := (prior.runs ++ [mkRun rd trigger now]).filter
              (fun run => now - HISTORY_RETENTION_MS ≤ run.timestamp),
            lastUpdated := some now }) } := by
  simp [saveRunToKV, saveRunToKVAttempt, hg, hb, hp]

/-- The returned summary's `success` is false exactly when no target was
discovered or some probe failed. -/
theorem runKeepalive_success_false_iff (parseHost : String → Option String)
    (env : Env) (oracle : Nat → FetchOutcome) (dur ts : Nat → Int)
    (kv : KVStore) (trigger : String) (now : Int) :
    ((runKeepalive parseHost env oracle dur ts kv trigger now).1.success = false
      ↔ (discoverProjects parseHost env = [] ∨
         (runKeepalive parseHost env oracle dur ts kv trigger now).1.summary.failed ≠ 0)) := by
  by_cases h : (discoverProjects parseHost env).length = 0
  · have h0 : discoverProjects parseHost env = [] := List.length_eq_zero.mp h
    simp [runKeepalive, h, h0, zeroRunData]
  · have h0 : discoverProjects parseHost env ≠ [] := by
      intro he
      exact h (by simp [he])
    simp [runKeepalive, h, h0]

/-- The runs held by a store whose blob is a valid log (else none). -/
def storedRuns (kv : KVStore) : List HistoryRun :=
  match kv.blob with
  | some (.valid log) => log.runs
  | _ => []

/-- An append instant 25 hours after epoch (in ms). -/
def now25h : Int := 90000000

/-- A history entry 25 hours older than `now25h` (timestamp 0). -/
def run25hAgo : HistoryRun :=
  { timestamp := 0, trigger := "cron", success := true, results := [],
    summary := { total := 0, succeeded := 0, failed := 0 } }

/-- A history entry 1 hour older than `now25h`. -/
def run1hAgo : HistoryRun :=
  { timestamp := 86400000, trigger := "cron", success := true, results := [],
    summary := { total := 0, succeeded := 0, failed := 0 } }

/-- A prior log holding the 25-hour-old and the 1-hour-old runs. -/
def priorLog : HistoryLog :=
  { runs := [run25hAgo, run1hAgo], lastUpdated := some 86400000 }

/-- A working store holding `priorLog`. -/
def kvPrior : KVStore :=
  { blob := some (.valid priorLog), getFails := false, putFails := false }

/-! ### Claims -/

/-- C1 (counterexample): the claim quantifies over any set of discovered
targets, but on the zero-target run the code returns `success = false` while
`counts.failed = 0`, so `success == (counts.failed == 0)` fails there. -/
theorem C1_counterexample :
    ¬ ((runKeepalive phNone emptyEnv oracleThrow dur0 ts0 freshKV "manual" 0).1.success
        = ((runKeepalive phNone emptyEnv oracleThrow dur0 ts0 freshKV
              "manual" 0).1.summary.failed == 0)) := by
  decide

/-- C1 (amended): for every run, `counts.total = results.length` and
`counts.succeeded + counts.failed = counts.total`; `success = (counts.failed
== 0)` holds whenever at least one target was discovered, while the
zero-target run has `success = false` with `counts.failed = 0`. -/
theorem C1_amended (parseHost : String → Option String) (env : Env)
    (oracle : Nat → FetchOutcome) (dur ts : Nat → Int) (kv : KVStore)
    (trigger : String) (now : Int) :
    ((runKeepalive parseHost env oracle dur ts kv trigger now).1.summary.total
        = (runKeepalive parseHost env oracle dur ts kv trigger now).1.results.length) ∧
    ((runKeepalive parseHost env oracle dur ts kv trigger now).1.summary.succeeded
        + (runKeepalive parseHost env oracle dur ts kv trigger now).1.summary.failed
        = (runKeepalive parseHost env oracle dur ts kv trigger now).1.summary.total) ∧
    (discoverProjects parseHost env ≠ [] →
      (runKeepalive parseHost env oracle dur ts kv trigger now).1.success
        = ((runKeepalive parseHost env oracle dur ts kv trigger now).1.summary.failed == 0)) ∧
    (discoverProjects parseHost env = [] →
      (runKeepalive parseHost env oracle dur ts kv trigger now).1.success = false ∧
      (runKeepalive parseHost env oracle dur ts kv trigger now).1.summary.failed = 0) := by
  by_cases h : (discoverProjects parseHost env).length = 0
  · have h0 : discoverProjects parseHost env = [] := List.length_eq_zero.mp h
    simp [runKeepalive, h, h0]
  · have h0 : discoverProjects parseHost env ≠ [] := fun he => h (by simp [he])
    refine ⟨by simp [runKeepalive, h], ?_, by simp [runKeepalive, h], by simp [h0]⟩
    simpa [runKeepalive, h] using filter_success_length _

/-- C1 witness: the amended identity applied to a one-target run whose
probe receives a 500 response. -/
theorem C1_amended_witness :
    (runKeepalive phHost oneEnv oracleBad dur0 ts0 freshKV "manual" 0).1.success
      = ((runKeepalive phHost oneEnv oracleBad dur0 ts0 freshKV
            "manual" 0).1.summary.failed == 0) :=
  (C1_amended phHost oneEnv oracleBad dur0 ts0 freshKV "manual" 0).2.2.1 (by decide)

/-- C2: `pingProject` is total (both branches return a record labelled with
the target's name, no exception escapes); on a received response the record
has `success = response.ok` and carries the status code; on a thrown
transport error it has `success = false`, no status code, the error message,
and the recorded duration. -/
theorem C2_pingProject_total (p : Project) (o : FetchOutcome) (d t : Int) :
    (pingProject p o d t).project = p.name ∧
    (match o with
     | .response ok status =>
         (pingProject p o d t).success = ok ∧
         (pingProject p o d t).statusCode = some status ∧
         (pingProject p o d t).duration = d
     | .thrown message =>
         (pingProject p o d t).success = false ∧
         (pingProject p o d t).statusCode = none ∧
         (pingProject p o d t).error = some message ∧
         (pingProject p o d t).duration = d) := by
  cases o <;> simp [pingProject]

/-- C4: the summary `runKeepalive` returns does not depend on the KV store
at all (in particular not on any of its failure modes), and whenever the
body of `saveRunToKV` throws, the error is swallowed and the store is left
untouched. -/
theorem C4_persistence_contained (parseHost : String → Option String)
    (env : Env) (oracle : Nat → FetchOutcome) (dur ts : Nat → Int)
    (kv kvFail : KVStore) (rd : RunData) (trigger : String) (now : Int) :
    ((runKeepalive parseHost env oracle dur ts kv trigger now).1 =
      (runKeepalive parseHost env oracle dur ts kvFail trigger now).1) ∧
    (∀ e, saveRunToKVAttempt kv rd trigger now = Except.error e →
      saveRunToKV kv rd trigger now = kv) := by
  constructor
  · by_cases h : (discoverProjects parseHost env).length = 0 <;>
      simp [runKeepalive, h]
  · intro e he
    simp [saveRunToKV, he]

/-- C4 witness: a store whose `get` throws yields the same returned summary
as a working store, and the failed save leaves that store unchanged. -/
theorem C4_witness :
    ((runKeepalive phNone emptyEnv oracleThrow dur0 ts0 freshKV "manual" 0).1 =
      (runKeepalive phNone emptyEnv oracleThrow dur0 ts0 failKV "manual" 0).1) ∧
    saveRunToKV failKV zeroRunData "manual" 0 = failKV :=
  ⟨(C4_persistence_contained phNone emptyEnv oracleThrow dur0 ts0 freshKV
      failKV zeroRunData "manual" 0).1,
   (C4_persistence_contained phNone emptyEnv oracleThrow dur0 ts0 failKV
      failKV zeroRunData "manual" 0).2 "KV get failed" rfl⟩

/-- C10: despite the concurrent fan-out, the results list is in discovery
order: it has one entry per discovered target and its i-th entry is labelled
with the i-th target's name. -/
theorem C10_results_in_target_order (parseHost : String → Option String)
    (env : Env) (oracle : Nat → FetchOutcome) (dur ts : Nat → Int)
    (kv : KVStore) (trigger : String) (now : Int) (i : Nat) :
    ((runKeepalive parseHost env oracle dur ts kv trigger now).1.results.length
        = (discoverProjects parseHost env).length) ∧
    (((runKeepalive parseHost env oracle dur ts kv trigger now).1.results[i]?).map
        (fun r => r.project)
      = ((discoverProjects parseHost env)[i]?).map (fun p => p.name)) := by
  by_cases h : (discoverProjects parseHost env).length = 0
  · have h0 : discoverProjects parseHost env = [] := List.length_eq_zero.mp h
    simp [runKeepalive, h, h0]
  · simp [runKeepalive, h, pingAll_length, pingAll_getElem]

/-- C3: a successful append writes back the prior runs with the new summary
appended and pruned at `now - 24h`, stamps `lastUpdated := now`, and hence
leaves no stored entry older than 24 hours. -/
theorem C3_append_prune (kv : KVStore) (rd : RunData) (trigger : String)
    (now : Int) (prior : HistoryLog) (hg : kv.getFails = false)
    (hb : parsedHistory kv.blob = some prior) (hp : kv.putFails = false) :
    ((saveRunToKV kv rd trigger now).blob =
      some (.valid
        { runs := (prior.runs ++ [mkRun rd trigger now]).filter
            (fun run => now - HISTORY_RETENTION_MS ≤ run.timestamp),
          lastUpdated := some now })) ∧
    (∀ run ∈ storedRuns (saveRunToKV kv rd trigger now),
      now - HISTORY_RETENTION_MS ≤ run.timestamp) := by
  have he := saveRunToKV_ok kv rd trigger now prior hg hb hp
  rw [he]
  refine ⟨rfl, ?_⟩
  intro run hr
  simp only [storedRuns, List.mem_filter] at hr
  exact of_decide_eq_true hr.2

/-- C3 witness: appending to a log holding a 25-hour-old and a 1-hour-old
run retains exactly the 1-hour-old run and the new one. -/
theorem C3_witness :
    ((saveRunToKV kvPrior zeroRunData "manual" now25h).blob =
      some (.valid
        { runs := (priorLog.runs ++ [mkRun zeroRunData "manual" now25h]).filter
            (fun run => now25h - HISTORY_RETENTION_MS ≤ run.timestamp),
          lastUpdated := some now25h })) ∧
    ((saveRunToKV kvPrior zeroRunData "manual" now25h).blob =
      some (.valid
        { runs := [run1hAgo, mkRun zeroRunData "manual" now25h],
          lastUpdated := some now25h })) :=
  ⟨(C3_append_prune kvPrior zeroRunData "manual" now25h priorLog
      rfl rfl rfl).1,
   by decide⟩

/-- C5: `/status` renders 200 `no_data` for an absent or empty log;
otherwise it renders the last run — 200 `healthy` when it succeeded, 503
`degraded` when not — with the run's timestamp, trigger, results and counts,
plus history metadata (`available: true`, `runCount`, `oldestRun` from the
first entry). -/
theorem C5_status_rendering (kv : KVStore) :
    (getStatusFromKV kv = none → handleStatusEndpoint kv = (200, noDataBody)) ∧
    (∀ log, getStatusFromKV kv = some log → log.runs = [] →
      handleStatusEndpoint kv = (200, noDataBody)) ∧
    (∀ log lastRun, getStatusFromKV kv = some log →
      log.runs.getLast? = some lastRun →
      (handleStatusEndpoint kv).1 = (if lastRun.success then 200 else 503) ∧
      (handleStatusEndpoint kv).2.status
        = (if lastRun.success then "healthy" else "degraded") ∧
      (handleStatusEndpoint kv).2.lastRun = some lastRun.timestamp ∧
      (handleStatusEndpoint kv).2.trigger = some lastRun.trigger ∧
      (handleStatusEndpoint kv).2.results = some lastRun.results ∧
      (handleStatusEndpoint kv).2.summary = some lastRun.summary ∧
      (handleStatusEndpoint kv).2.historyAvailableTrue = true ∧
      (handleStatusEndpoint kv).2.runCount = some log.runs.length ∧
      (handleStatusEndpoint kv).2.oldestRun
        = log.runs.head?.map (fun run => run.timestamp)) := by
  refine ⟨?_, ?_, ?_⟩
  · intro h
    simp [handleStatusEndpoint, h]
  · intro log hl hr
    simp [handleStatusEndpoint, hl, hr]
  · intro log lastRun hl hlast
    simp [handleStatusEndpoint, hl, hlast]

/-- C5 witness: rendering a two-run log whose last run succeeded. -/
theorem C5_witness :
    (handleStatusEndpoint kvPrior).1 = (if run1hAgo.success then 200 else 503) ∧
    (handleStatusEndpoint kvPrior).2.status
      = (if run1hAgo.success then "healthy" else "degraded") ∧
    (handleStatusEndpoint kvPrior).2.lastRun = some run1hAgo.timestamp ∧
    (handleStatusEndpoint kvPrior).2.trigger = some run1hAgo.trigger ∧
    (handleStatusEndpoint kvPrior).2.results = some run1hAgo.results ∧
    (handleStatusEndpoint kvPrior).2.summary = some run1hAgo.summary ∧
    (handleStatusEndpoint kvPrior).2.historyAvailableTrue = true ∧
    (handleStatusEndpoint kvPrior).2.runCount = some priorLog.runs.length ∧
    (handleStatusEndpoint kvPrior).2.oldestRun
      = priorLog.runs.head?.map (fun run => run.timestamp) :=
  (C5_status_rendering kvPrior).2.2 priorLog run1hAgo rfl rfl

/-- C6: with zero discovered targets, `runKeepalive` returns the
`success = false`, empty-results, zero-count summary, and the store state it
returns is exactly the result of saving that summary — the zero-target run
is handed to the history store before returning. -/
theorem C6_zero_target_run (parseHost : String → Option String) (env : Env)
    (oracle : Nat → FetchOutcome) (dur ts : Nat → Int) (kv : KVStore)
    (trigger : String) (now : Int)
    (h : discoverProjects parseHost env = []) :
    ((runKeepalive parseHost env oracle dur ts kv trigger now).1 = zeroRunData) ∧
    ((runKeepalive parseHost env oracle dur ts kv trigger now).2 =
      saveRunToKV kv zeroRunData trigger now) := by
  have hl : (discoverProjects parseHost env).length = 0 := by simp [h]
  constructor <;> simp [runKeepalive, hl, zeroRunData]

/-- C6 witness: the unconfigured environment discovers no target, and its
run returns the zero summary while saving it to the fresh store. -/
theorem C6_witness :
    ((runKeepalive phNone emptyEnv oracleThrow dur0 ts0 freshKV "cron" 7).1
        = zeroRunData) ∧
    ((runKeepalive phNone emptyEnv oracleThrow dur0 ts0 freshKV "cron" 7).2 =
      saveRunToKV freshKV zeroRunData "cron" 7) :=
  C6_zero_target_run phNone emptyEnv oracleThrow dur0 ts0 freshKV "cron" 7
    (by decide)

/-- C7 (counterexample): when URL parsing fails the code falls back to
`"project-<i>"`, not the claimed `"target-<i>"`. -/
theorem C7_counterexample :
    extractProjectName phNone "https://x" 7 = "project-7" ∧
    "project-7" ≠ "target-7" := by
  decide

/-- C7 (amended): the derived name is the first label of the parsed host,
and whenever parsing fails or that label is empty it is the fallback
`"project-<i>"` for ordinal `i`. -/
theorem C7_amended (parseHost : String → Option String) (url : String)
    (i : Nat) :
    (match parseHost url with
     | none => extractProjectName parseHost url i = "project-" ++ toString i
     | some host =>
         if (firstLabel host).isEmpty then
           extractProjectName parseHost url i = "project-" ++ toString i
         else
           extractProjectName parseHost url i = firstLabel host) := by
  cases hp : parseHost url with
  | none => simp [extractProjectName, hp]
  | some host =>
      cases hl : (firstLabel host).isEmpty <;>
        simp [extractProjectName, hp, hl]

/-- C8 (counterexample): a run invoked by the scheduled handler is persisted
with trigger `"cron"` — a value outside the claimed `{scheduled, manual}`
enum, and in particular not `"scheduled"`. -/
theorem C8_counterexample :
    ((scheduledHandler phNone emptyEnv oracleThrow dur0 ts0 freshKV 5).blob =
      some (.valid
        { runs := [{ timestamp := 5, trigger := "cron", success := false,
                     results := [],
                     summary := { total := 0, succeeded := 0, failed := 0 } }],
          lastUpdated := some 5 })) ∧
    "cron" ≠ "scheduled" ∧ "cron" ≠ "manual" := by
  decide

/-- C8 (amended): the scheduled handler persists its run with trigger
`"cron"`: after a successful append the new entry (trigger `"cron"`) is
stored, and every stored entry is either a prior one or carries trigger
`"cron"`.  The handler's result type is the store alone: the summary is not
returned to any caller. -/
theorem C8_amended (parseHost : String → Option String) (env : Env)
    (oracle : Nat → FetchOutcome) (dur ts : Nat → Int) (kv : KVStore)
    (now : Int) (prior : HistoryLog) (hg : kv.getFails = false)
    (hb : parsedHistory kv.blob = some prior) (hp : kv.putFails = false) :
    (mkRun (runKeepalive parseHost env oracle dur ts kv "cron" now).1 "cron" now
        ∈ storedRuns (scheduledHandler parseHost env oracle dur ts kv now)) ∧
    (∀ run ∈ storedRuns (scheduledHandler parseHost env oracle dur ts kv now),
      run ∈ prior.runs ∨ run.trigger = "cron") := by
  have hsr : storedRuns (scheduledHandler parseHost env oracle dur ts kv now)
      = (prior.runs ++
          [mkRun (runKeepalive parseHost env oracle dur ts kv "cron" now).1
            "cron" now]).filter
          (fun run => now - HISTORY_RETENTION_MS ≤ run.timestamp) := by
    unfold scheduledHandler
    rw [runKeepalive_snd_eq,
        saveRunToKV_ok kv _ "cron" now prior hg hb hp]
    rfl
  rw [hsr]
  constructor
  · refine List.mem_filter.mpr ⟨List.mem_append.mpr (Or.inr ?_), ?_⟩
    · exact List.mem_singleton.mpr rfl
    · simp only [mkRun, HISTORY_RETENTION_MS]
      norm_num
  · intro run hr
    rcases List.mem_filter.mp hr with ⟨hmem, _⟩
    rcases List.mem_append.mp hmem with h1 | h1
    · exact Or.inl h1
    · right
      rw [List.mem_singleton.mp h1]
      rfl

/-- C8 witness: the amended statement applied to a working store holding two
prior runs. -/
theorem C8_witness :
    (mkRun (runKeepalive phNone emptyEnv oracleThrow dur0 ts0 kvPrior
          "cron" now25h).1 "cron" now25h
        ∈ storedRuns (scheduledHandler phNone emptyEnv oracleThrow dur0 ts0
            kvPrior now25h)) ∧
    (∀ run ∈ storedRuns (scheduledHandler phNone emptyEnv oracleThrow dur0
        ts0 kvPrior now25h),
      run ∈ priorLog.runs ∨ run.trigger = "cron") :=
  C8_amended phNone emptyEnv oracleThrow dur0 ts0 kvPrior now25h priorLog
    rfl rfl rfl

/-- C9 (counterexample): the zero-target run is answered with 207 although
no target failed (`counts.failed = 0`, empty results), refuting "207 exactly
when at least one target failed". -/
theorem C9_counterexample :
    ((fetchHandler phNone emptyEnv oracleThrow dur0 ts0 freshKV "/" 0).1.1
        = 207) ∧
    ((runKeepalive phNone emptyEnv oracleThrow dur0 ts0 freshKV
        "manual" 0).1.summary.failed = 0) ∧
    ((runKeepalive phNone emptyEnv oracleThrow dur0 ts0 freshKV
        "manual" 0).1.results = []) := by
  decide

/-- C9 (amended): every path other than `/health` and `/status` triggers
one run with trigger `"manual"` and answers with its summary, 200 when
`success` and 207 otherwise — i.e. 207 exactly when some target failed or
zero targets were discovered. -/
theorem C9_amended (parseHost : String → Option String) (env : Env)
    (oracle : Nat → FetchOutcome) (dur ts : Nat → Int) (kv : KVStore)
    (path : String) (now : Int)
    (h1 : path ≠ "/health") (h2 : path ≠ "/status") :
    (fetchHandler parseHost env oracle dur ts kv path now =
      ((if (runKeepalive parseHost env oracle dur ts kv "manual" now).1.success
          then 200 else 207,
        .run (runKeepalive parseHost env oracle dur ts kv "manual" now).1),
       (runKeepalive parseHost env oracle dur ts kv "manual" now).2)) ∧
    ((fetchHandler parseHost env oracle dur ts kv path now).1.1 = 207 ↔
      (discoverProjects parseHost env = [] ∨
       (runKeepalive parseHost env oracle dur ts kv
          "manual" now).1.summary.failed ≠ 0)) := by
  constructor
  · simp [fetchHandler, h1, h2]
  · rw [← runKeepalive_success_false_iff parseHost env oracle dur ts kv
        "manual" now]
    simp only [fetchHandler, h1, h2, if_false, if_neg]
    cases hs : (runKeepalive parseHost env oracle dur ts kv
        "manual" now).1.success <;> simp [hs]

/-- C9 witness: a one-target run whose probe gets a 500 response is
answered with 207, and the equivalence holds at that input. -/
theorem C9_witness :
    (fetchHandler phHost oneEnv oracleBad dur0 ts0 freshKV "/" 0 =
      ((if (runKeepalive phHost oneEnv oracleBad dur0 ts0 freshKV
            "manual" 0).1.success
          then 200 else 207,
        .run (runKeepalive phHost oneEnv oracleBad dur0 ts0 freshKV
          "manual" 0).1),
       (runKeepalive phHost oneEnv oracleBad dur0 ts0 freshKV "manual" 0).2)) ∧
    ((fetchHandler phHost oneEnv oracleBad dur0 ts0 freshKV "/" 0).1.1 = 207 ↔
      (discoverProjects phHost oneEnv = [] ∨
       (runKeepalive phHost oneEnv oracleBad dur0 ts0 freshKV
          "manual" 0).1.summary.failed ≠ 0)) :=
  C9_amended phHost oneEnv oracleBad dur0 ts0 freshKV "/" 0
    (by decide) (by decide)

end Keepalive
